import Mathlib

/-!
Shallow embedding of the routing, extraction, caching and provider-fallback
core of the financial-agent repository (src/agent.py, src/tools.py,
src/cache.py).  Queries and other Python strings are modelled as `List Char`;
Python `None` vs. float `NaN` vs. numbers are modelled by an explicit
`PyVal` type; fallible Python code is modelled with `Except`.  External
collaborators (the LLM, yfinance, Alpha Vantage, Brave search, the file
system clock) are passed in as explicit parameters, mirroring the spec's
"opaque collaborator" boundaries.
-/

/-- Python `\s` (ASCII whitespace as used by `re` and `str.strip`). -/
def pySpace (c : Char) : Bool :=
  c == ' ' || c == '\t' || c == '\n' || c == '\r' || c == '\x0b' || c == '\x0c'

/-- Python `\d` restricted to ASCII digits. -/
def isDigitCh (c : Char) : Bool := '0' ≤ c && c ≤ '9'

/-- Python `str.strip()`: drop leading and trailing whitespace. -/
def pyStrip (s : List Char) : List Char :=
  ((s.dropWhile pySpace).reverse.dropWhile pySpace).reverse

/-- ASCII `str.lower()`. -/
def asciiLower (c : Char) : Char :=
  if 'A' ≤ c ∧ c ≤ 'Z' then Char.ofNat (c.toNat + 32) else c

/-- Python `\w` (ASCII): letters, digits, underscore. -/
def isWordChar (c : Char) : Bool := c.isAlpha || c.isDigit || c == '_'

/-- Result of `re.match(r'^(\d+):\s*(.*)', query)` in `router_node`
(src/agent.py line 70): `some (group1, group2)` on a match, `none` otherwise.
`group1` is the maximal leading digit run; since `.` does not match a newline
and `\s*` is greedy, `group2` is the text after the colon with leading
whitespace dropped and truncated at the first newline. -/
def prefixMatch (q : List Char) : Option (List Char × List Char) :=
  let ds := q.takeWhile isDigitCh
  match q.drop ds.length with
  | ':' :: tail =>
    if ds = [] then none
    else some (ds, (tail.dropWhile pySpace).takeWhile (fun c => c ≠ '\n'))
  | _ => none

/-- Output of the classification stage of `router_node`
(src/agent.py lines 70-89). `classifierArg` records the argument the
generation-based classifier was invoked with (`none` = never invoked). -/
structure ClassifyOut where
  taskType : List Char
  query : List Char
  classifierArg : Option (List Char)
deriving DecidableEq, Repr

/-- The `if not task_type` branch of `router_node` (src/agent.py lines 82-89):
invoke the opaque generation-based classifier on the (unmodified) query,
strip its `.content` on success, and default to task type `"4"` when the
call raises. -/
def classifyFallback (classify : List Char → Except Unit (List Char)) (q : List Char) :
    ClassifyOut :=
  match classify q with
  | .ok t => ⟨pyStrip t, q, some q⟩
  | .error _ => ⟨['4'], q, some q⟩

/-- Classification stage of `router_node` (src/agent.py lines 70-89).
An in-range `"N:"` prefix sets the task type and replaces the query by the
stripped second capture group, bypassing the classifier; otherwise
`classifyFallback` runs on the unmodified query. -/
def routerClassify (classify : List Char → Except Unit (List Char)) (q : List Char) :
    ClassifyOut :=
  match prefixMatch q with
  | some (ds, g2) =>
    if ds ∈ [['1'], ['2'], ['3'], ['4'], ['5']] then ⟨ds, pyStrip g2, none⟩
    else classifyFallback classify q
  | none => classifyFallback classify q

/-- Queries covered by the spec's testable property: the Python regex
`^[1-5]:\s*.+` matches the query (as a prefix match, the `re.match`
convention; `.` does not match a newline, `\s*` may). -/
def claimPattern (q : List Char) : Bool :=
  match q with
  | d :: c :: rest =>
    (d ∈ ['1', '2', '3', '4', '5'] : Bool) && (c == ':') &&
      (List.range rest.length).any fun k =>
        ((rest.take k).all pySpace) && (rest.getD k '\n' ≠ '\n' : Bool)
  | _ => false

/-- Decimal value of a digit string (used to state "the digit part is
outside 1-5"). -/
def decimalVal (ds : List Char) : ℕ :=
  ds.foldl (fun acc c => 10 * acc + (c.toNat - '0'.toNat)) 0

/-- Spelled out from the claim's words for C1: the effective query is "the
remainder" once the explicit `"N:"` prefix and the whitespace that follows
it are stripped from the query. Compared against what `router_node`
actually leaves in `state["query"]`. -/
def claimEffectiveQuery (q : List Char) : List Char :=
  (q.drop 2).dropWhile pySpace

/-- The lookup table `common_companies` (src/agent.py lines 33-44), in
source (dict-insertion) order: lookup key, display name, ticker. -/
def common_companies : List (List Char × List Char × List Char) :=
  [("apple".toList, "Apple".toList, "AAPL".toList),
   ("nvidia".toList, "Nvidia".toList, "NVDA".toList),
   ("tesla".toList, "Tesla".toList, "TSLA".toList),
   ("samsung".toList, "Samsung".toList, "005930.KS".toList),
   ("mcdonalds".toList, "McDonalds".toList, "MCD".toList),
   ("microsoft".toList, "Microsoft".toList, "MSFT".toList),
   ("alibaba".toList, "Alibaba".toList, "BABA".toList),
   ("hyundai".toList, "Hyundai".toList, "005380.KS".toList),
   ("bank of america".toList, "Bank of America".toList, "BAC".toList),
   ("jpmorgan".toList, "JPMorgan".toList, "JPM".toList)]

/-- Python `re.search(r'\b' + re.escape(name) + r'\b', s)` for a `name` whose
first and last characters are word characters (true for every
`common_companies` key): `name` occurs at some position with no word
character immediately before or after the occurrence. -/
def hasWordMatch (name s : List Char) : Bool :=
  (List.range (s.length + 1)).any fun i =>
    ((s.drop i).take name.length == name) &&
    (i == 0 || !isWordChar (s.getD (i - 1) ' ')) &&
    !isWordChar (s.getD (i + name.length) ' ')

/-- A resolved company: display name plus ticker (spec's `CompanyRef`). -/
structure CompanyRef where
  company : List Char
  ticker : List Char
deriving DecidableEq, Repr

/-- The task-5 lookup-table scan of `router_node` (src/agent.py lines
118-123): walk `common_companies` in table order over the lowercased query,
word-boundary matching each key, appending one `CompanyRef` per not-yet-seen
ticker.  Returns the extracted list together with the final `seen_tickers`
(threaded through to the later ticker-shaped-token phase). -/
def extract_lookup (ql : List Char) (seen : List (List Char)) :
    List (List Char × List Char × List Char) → List CompanyRef × List (List Char)
  | [] => ([], seen)
  | e :: rest =>
    if hasWordMatch e.1 ql && !(seen.contains e.2.2) then
      let out := extract_lookup ql (e.2.2 :: seen) rest
      (⟨e.2.1, e.2.2⟩ :: out.1, out.2)
    else extract_lookup ql seen rest

/-- Maximal runs of word characters in a string (the `acc` argument holds
the current run, reversed). -/
def wordRuns (acc : List Char) : List Char → List (List Char)
  | [] => if acc = [] then [] else [acc.reverse]
  | c :: rest =>
    if isWordChar c then wordRuns (c :: acc) rest
    else if acc = [] then wordRuns [] rest
    else acc.reverse :: wordRuns [] rest

/-- Python `re.findall(r'\b[A-Z]{2,5}\b', q)` (src/agent.py line 125): the
maximal word-character runs of `q` consisting of 2 to 5 uppercase ASCII
letters. -/
def potentialTickers (q : List Char) : List (List Char) :=
  (wordRuns [] q).filter fun r =>
    r.all (fun c => 'A' ≤ c && c ≤ 'Z') && decide (2 ≤ r.length) && decide (r.length ≤ 5)

/-- The ticker-shaped-token phase of task-5 extraction (src/agent.py lines
126-137): each potential ticker not already seen is appended, reusing the
table's display name when the token equals a known ticker and otherwise
using the token itself as both name and ticker. -/
def ticker_phase (seen : List (List Char)) : List (List Char) → List CompanyRef
  | [] => []
  | pt :: rest =>
    if seen.contains pt then ticker_phase seen rest
    else
      match common_companies.find? (fun e => e.2.2 == pt) with
      | some e => ⟨e.2.1, pt⟩ :: ticker_phase (pt :: seen) rest
      | none => ⟨pt, pt⟩ :: ticker_phase (pt :: seen) rest

/-- The full regex path of task-5 multi-entity extraction (src/agent.py
lines 114-137): table scan over the lowercased query, then ticker-shaped
tokens from the original-case query, sharing one `seen_tickers` set. -/
def extract_many (q : List Char) : List CompanyRef :=
  let p := extract_lookup (q.map asciiLower) [] common_companies
  p.1 ++ ticker_phase p.2 (potentialTickers q)

/-- Spelled out from the claim's words for C8: scan the lookup table in
table order keeping the word-boundary matches, with at most one entry per
ticker (first occurrence wins). -/
def spec_dedupe_by_ticker (seen : List (List Char)) :
    List (List Char × List Char × List Char) → List CompanyRef
  | [] => []
  | e :: rest =>
    if seen.contains e.2.2 then spec_dedupe_by_ticker seen rest
    else ⟨e.2.1, e.2.2⟩ :: spec_dedupe_by_ticker (e.2.2 :: seen) rest

/-- A Python value as it ends up in a metrics mapping: `None` (JSON null),
a float `NaN` (what pandas produces for an undersized rolling window), or an
ordinary number (floats modelled as rationals). -/
inductive PyVal where
  | null : PyVal
  | nan : PyVal
  | num : ℚ → PyVal
deriving DecidableEq, Repr

/-- Pandas `series.rolling(n).mean().iloc[-1]` on a nonempty series of
closes: `NaN` when the series is shorter than the window, otherwise the mean
of the last `n` values (src/tools.py lines 59-60 — note: no length guard in
the source). -/
def rollingMeanLast (n : ℕ) (xs : List ℚ) : PyVal :=
  if xs.length < n then PyVal.nan else PyVal.num ((xs.drop (xs.length - n)).sum / n)

/-- The history-derived fields of the metrics dict built by `get_stock_data`
(src/tools.py lines 57-60), from the list of daily closes. -/
structure Metrics where
  ret1y : PyVal
  ret5y : PyVal
  ma50 : PyVal
  ma200 : PyVal
deriving DecidableEq, Repr

/-- History-derived metrics for a nonempty close series: the 1y/5y returns
are length-guarded in the source (lines 57-58), the moving averages are not
(lines 59-60). `iloc[-1]` is the last element, `iloc[-252]` the element 252
from the end, `iloc[0]` the first. -/
def metricsOf (xs : List ℚ) : Metrics where
  ret1y := if 252 ≤ xs.length then PyVal.num (xs.getLastD 0 / xs.getD (xs.length - 252) 0 - 1)
           else PyVal.null
  ret5y := if 0 < xs.length then PyVal.num (xs.getLastD 0 / xs.headD 0 - 1) else PyVal.null
  ma50 := rollingMeanLast 50 xs
  ma200 := rollingMeanLast 200 xs

/-- The `get_stock_data` pipeline (src/tools.py lines 27-76) at the level of
its history-derived fields: return the cached metrics on a cache hit;
otherwise, a raising yfinance fetch, or an empty history (whose `iloc[-1]`
raises `IndexError` at line 59), is caught by the `except` and yields the
empty dict (modelled `none`); a nonempty history yields `metricsOf`.
The function is total: no exception reaches the caller. -/
def get_stock_data (cached : Option Metrics) (fetch : Except Unit (List ℚ)) :
    Option Metrics :=
  match cached with
  | some m => some m
  | none =>
    match fetch with
    | .error _ => none
    | .ok xs => if xs = [] then none else some (metricsOf xs)

/-- Python float division, which raises `ZeroDivisionError` on a zero
denominator. -/
def pyDiv (a b : ℚ) : Except Unit ℚ :=
  if b = 0 then .error () else .ok (a / b)

/-- The daily-percent-change derivation of `get_stock_highlights`
(src/tools.py lines 116-118):
`((current - prev_close) / prev_close * 100) if prev_close and current else
None`, with Python truthiness (`None` and `0` are falsy). The division is
modelled through `pyDiv` so that a division-by-zero fault would be visible
as an `Except.error`. -/
def highlightsDailyChange (current prevClose : Option ℚ) : Except Unit (Option ℚ) :=
  match prevClose, current with
  | some p, some c =>
    if p ≠ 0 ∧ c ≠ 0 then (pyDiv (c - p) p).map (fun r => some (r * 100))
    else .ok none
  | _, _ => .ok none

/-- The news-provider tiers of `get_recent_news` (src/tools.py lines
166-204). -/
inductive Tier where
  | alphaVantage : Tier
  | yfinance : Tier
  | brave : Tier
deriving DecidableEq, Repr

/-- Observable outcome of one `get_recent_news` call: which tiers were
attempted (in order), what was written to the news cache (if anything), and
the returned list. -/
structure NewsOut (α : Type) where
  attempts : List Tier
  cacheWrite : Option (List α)
  result : List α
deriving DecidableEq, Repr

/-- The Brave web-search tier of `get_recent_news` (src/tools.py lines
199-204): only runs when a company name was supplied; `get_news` itself
never raises (it returns `[]` on error), and its result — empty or not — is
written to the cache; with no company the function returns `[]`. -/
def newsTier3 (company : Option (List Char)) (brave : List α) : NewsOut α :=
  match company with
  | some _ => ⟨[Tier.alphaVantage, Tier.yfinance, Tier.brave], some brave, brave⟩
  | none => ⟨[Tier.alphaVantage, Tier.yfinance], none, []⟩

/-- The yfinance tier of `get_recent_news` (src/tools.py lines 188-197):
on a raising fetch, or an empty item list, fall through to the Brave tier;
otherwise cache and return the items. -/
def newsTier2 (yfNews : Except Unit (List α)) (company : Option (List Char))
    (brave : List α) : NewsOut α :=
  match yfNews with
  | .ok l =>
    if l.isEmpty then newsTier3 company brave
    else ⟨[Tier.alphaVantage, Tier.yfinance], some l, l⟩
  | .error _ => newsTier3 company brave

/-- The `get_recent_news` tiered fallback (src/tools.py lines 166-204):
cache hit short-circuits; the Alpha Vantage tier raises `ValueError` on an
empty feed (line 180), so a raising call or an empty feed both fall through
to the yfinance tier; a nonempty feed is cached and returned.
All tier bodies sit in `try/except`, so the function is total. -/
def get_recent_news (cached : Option (List α)) (av : Except Unit (List α))
    (yfNews : Except Unit (List α)) (company : Option (List Char)) (brave : List α) :
    NewsOut α :=
  match cached with
  | some c => ⟨[], none, c⟩
  | none =>
    match av with
    | .ok feed =>
      if feed.isEmpty then newsTier2 yfNews company brave
      else ⟨[Tier.alphaVantage], some feed, feed⟩
    | .error _ => newsTier2 yfNews company brave

/-- The result-collection loop of `generate_highlights_node` (src/agent.py
lines 356-363): one fetch per company; a raising per-company future is
caught (`except` at line 362) and excluded, so the collected list holds
exactly the successful fetches. Completion order is nondeterministic in the
source (`as_completed`); input order stands in for it here — the claims
about this loop concern only membership and count. -/
def highlightsBatch (companies : List α) (fetch : α → Except Unit β) : List β :=
  companies.filterMap fun c => (fetch c).toOption

/-- Seconds in the 24-hour TTL for metrics and news cache entries
(src/cache.py line 6). -/
def CACHE_EXPIRATION_SECONDS : ℚ := 86400

/-- Seconds in the 5-minute TTL for highlights cache entries
(src/cache.py line 7). -/
def CACHE_HIGHLIGHTS_SECONDS : ℚ := 300

/-- The file-backed metrics cache entry for one ticker: file modification
time paired with the stored payload, `none` when the file does not exist. -/
def get_cached_data (now : ℚ) (entry : Option (ℚ × α)) : Option α :=
  match entry with
  | none => none
  | some (mtime, payload) =>
    if now - mtime < CACHE_EXPIRATION_SECONDS then some payload else none

/-- Writing a metrics cache entry (src/cache.py lines 18-21) stamps it with
the write time. -/
def set_cached_data (now : ℚ) (payload : α) : Option (ℚ × α) :=
  some (now, payload)

/-- News cache read (src/cache.py lines 23-30), 24-hour TTL. -/
def get_cached_news (now : ℚ) (entry : Option (ℚ × α)) : Option α :=
  match entry with
  | none => none
  | some (mtime, payload) =>
    if now - mtime < CACHE_EXPIRATION_SECONDS then some payload else none

/-- News cache write (src/cache.py lines 32-35). -/
def set_cached_news (now : ℚ) (payload : α) : Option (ℚ × α) :=
  some (now, payload)

/-- Highlights cache read (src/cache.py lines 37-44), 5-minute TTL. -/
def get_cached_highlights (now : ℚ) (entry : Option (ℚ × α)) : Option α :=
  match entry with
  | none => none
  | some (mtime, payload) =>
    if now - mtime < CACHE_HIGHLIGHTS_SECONDS then some payload else none

/-- Highlights cache write (src/cache.py lines 46-49). -/
def set_cached_highlights (now : ℚ) (payload : α) : Option (ℚ × α) :=
  some (now, payload)

/-- The fixed phrase removed by `get_general_news_node` (src/agent.py line
313). -/
def newsPhrase : List Char := "What is the latest news on".toList

/-- Python `s.replace(needle, "")` for a fixed needle: remove the leftmost
occurrence and continue after it, scanning left to right without overlap.
Written with explicit fuel (one unit per consumed character suffices, since
a removal consumes at least one character) so that the definition reduces in
the kernel. -/
def removeAllFuel (needle : List Char) : ℕ → List Char → List Char
  | _, [] => []
  | 0, s => s
  | fuel + 1, c :: rest =>
    if !needle.isEmpty && needle.isPrefixOf (c :: rest) then
      removeAllFuel needle fuel ((c :: rest).drop needle.length)
    else c :: removeAllFuel needle fuel rest

/-- Python `s.replace(needle, "")`. -/
def removeAll (needle s : List Char) : List Char :=
  removeAllFuel needle s.length s

/-- The topic derivation of `get_general_news_node` (src/agent.py line 313):
`state["query"].replace("What is the latest news on", "").strip()`. -/
def generalNewsTopic (q : List Char) : List Char :=
  pyStrip (removeAll newsPhrase q)

/-- Spelled out from the claim's words for C6: strip the fixed phrase only
when it is a leading prefix, leaving the remainder (trimmed) as topic. -/
def claimTopic (q : List Char) : List Char :=
  if newsPhrase.isPrefixOf q then pyStrip (q.drop newsPhrase.length) else q

/-- The fields of the per-request `AgentState` dict relevant to the tasks
1-3 pipeline; `none` models a key that was never assigned (absent from the
dict). -/
structure AgentState where
  query : List Char
  taskType : List Char
  company : Option (List Char)
  ticker : Option (List Char)
  response : Option (List Char)
deriving DecidableEq, Repr

/-- Python exceptions distinguished by the embedding. -/
inductive PyErr where
  | keyError : PyErr
  | other : PyErr
deriving DecidableEq, Repr

/-- Outcome of the generation-based single-entity extraction try-block
(src/agent.py lines 103-112): the call raised or the `split` parse raised
(both caught, leaving the state untouched), the output contained `"None"`
(branch skipped), or a company/ticker pair was parsed. -/
inductive ExtractLLM where
  | failed : ExtractLLM
  | noneAnswer : ExtractLLM
  | parsed : List Char → List Char → ExtractLLM
deriving DecidableEq, Repr

/-- The single-entity lookup scan of `router_node` (src/agent.py lines
93-101): first word-boundary match in table order wins (`break`). -/
def lookupOne (ql : List Char) : Option (List Char × List Char) :=
  match common_companies.find? (fun e => hasWordMatch e.1 ql) with
  | some e => some (e.2.1, e.2.2)
  | none => none

/-- The entity-extraction stage of `router_node` for task types 1-3
(src/agent.py lines 92-112): lookup-table hit assigns company and ticker;
otherwise the generation fallback assigns them only on a successful parse —
on a raised call, a raised parse, or a `"None"` answer the keys stay
unassigned. -/
def router_extract_single (llm : ExtractLLM) (st : AgentState) : AgentState :=
  match lookupOne (st.query.map asciiLower) with
  | some (name, tick) => { st with company := some name, ticker := some tick }
  | none =>
    match llm with
    | .parsed c t => { st with company := some c, ticker := some t }
    | .noneAnswer => st
    | .failed => st

/-- The `generate_report_node` executor (src/agent.py lines 210-237) at the
level of its control flow: `if state["ticker"]:` is a dict access that
raises `KeyError` when the key was never assigned; with a truthy ticker the
whole body sits in `try/except` (modelled by the opaque `body`: the
report text on success, an error that the `except` converts into the fixed
`"Error generating report."` response); with a falsy ticker the state is
returned unchanged — `response` left unassigned. -/
def generate_report_node (body : Except Unit (List Char)) (st : AgentState) :
    Except PyErr AgentState :=
  match st.ticker with
  | none => Except.error PyErr.keyError
  | some t =>
    if t ≠ [] then
      match body with
      | .ok r => Except.ok { st with response := some r }
      | .error _ => Except.ok { st with response := some ("Error generating report.".toList) }
    else Except.ok st

/-! ## Helper lemmas -/

theorem takeWhile_digits_append (ds rest : List Char) (h : ds.all isDigitCh = true) :
    (ds ++ ':' :: rest).takeWhile isDigitCh = ds := by
  induction ds with
  | nil => simp [List.takeWhile_cons, show isDigitCh ':' = false from rfl]
  | cons a l ih =>
    simp only [List.all_cons, Bool.and_eq_true] at h
    simp [List.takeWhile_cons, h.1, ih h.2]

theorem classifyFallback_query (classify : List Char → Except Unit (List Char))
    (q : List Char) :
    (classifyFallback classify q).classifierArg = some q ∧
      (classifyFallback classify q).query = q := by
  unfold classifyFallback
  cases classify q <;> simp

/-! ## Claim theorems -/

/-- C1 counterexample: for the query `"1: a\nb"` — which matches the
claim's pattern `^[1-5]:\s*.+` — `router_node` sets the effective query to
`"a"` (the regex's `(.*)` stops at the newline), not to the remainder
`"a\nb"` left once the prefix is stripped, so the claim as stated fails. -/
theorem c1_prefix_remainder_cex :
    claimPattern ("1: a\nb".toList) = true ∧
    (routerClassify (fun _ => Except.error ()) ("1: a\nb".toList)).query = "a".toList ∧
    claimEffectiveQuery ("1: a\nb".toList) = "a\nb".toList ∧
    "a".toList ≠ "a\nb".toList := by decide

/-- C1 (amended): for every query matching `^[1-5]:\s*.+`, the router
assigns the task type equal to the prefix digit, never invokes the
generation-based classifier, and the effective query is the remainder after
the prefix and its following whitespace, truncated at the first newline and
stripped of surrounding whitespace. -/
theorem c1_prefix_override_amended (classify : List Char → Except Unit (List Char))
    (q : List Char) (h : claimPattern q = true) :
    ∃ d rest, q = d :: ':' :: rest ∧ d ∈ ['1', '2', '3', '4', '5'] ∧
      routerClassify classify q =
        ⟨[d], pyStrip ((rest.dropWhile pySpace).takeWhile (fun c => c ≠ '\n')), none⟩ := by
  rcases q with _ | ⟨d, _ | ⟨c, rest⟩⟩
  · simp [claimPattern] at h
  · simp [claimPattern] at h
  · simp only [claimPattern, Bool.and_eq_true, decide_eq_true_eq, beq_iff_eq,
      List.mem_cons, List.not_mem_nil, or_false] at h
    obtain ⟨⟨hd, rfl⟩, -⟩ := h
    rcases hd with rfl | rfl | rfl | rfl | rfl <;> exact ⟨_, rest, rfl, by decide, rfl⟩

/-- C1 amended witness at the concrete query `"3: hi"`. -/
theorem c1_prefix_override_amended_witness :
    claimPattern ("3: hi".toList) = true ∧
    (∃ d rest, "3: hi".toList = d :: ':' :: rest ∧ d ∈ ['1', '2', '3', '4', '5'] ∧
      routerClassify (fun _ => Except.error ()) ("3: hi".toList) =
        ⟨[d], pyStrip ((rest.dropWhile pySpace).takeWhile (fun c => c ≠ '\n')), none⟩) :=
  ⟨by decide, c1_prefix_override_amended (fun _ => Except.error ()) _ (by decide)⟩

/-- C10: for every query with a numeric prefix whose digit part is outside
1-5 (e.g. `"6: foo"`, `"12: foo"`), the router does not treat the prefix as
an override: it behaves exactly as the generation-classifier fallback,
invoking the classifier on the full original query — prefix included — and
leaving the query unstripped. -/
theorem c10_out_of_range_prefix (classify : List Char → Except Unit (List Char))
    (ds rest : List Char) (h1 : ds ≠ []) (h2 : ds.all isDigitCh = true)
    (h3 : decimalVal ds < 1 ∨ 5 < decimalVal ds) :
    routerClassify classify (ds ++ ':' :: rest) =
      classifyFallback classify (ds ++ ':' :: rest) ∧
    (classifyFallback classify (ds ++ ':' :: rest)).classifierArg =
      some (ds ++ ':' :: rest) ∧
    (classifyFallback classify (ds ++ ':' :: rest)).query = ds ++ ':' :: rest := by
  have hmem : ds ∉ [['1'], ['2'], ['3'], ['4'], ['5']] := by
    intro hm
    fin_cases hm <;> revert h3 <;> decide
  refine ⟨?_, classifyFallback_query classify _⟩
  unfold routerClassify prefixMatch
  rw [takeWhile_digits_append ds rest h2]
  simp only [List.drop_left]
  simp [h1, hmem]

/-- C2 counterexample: on a cache miss with a 10-point close history, the
metrics built by `get_stock_data` carry `NaN` — not null — in both moving
average fields, because src/tools.py lines 59-60 apply no length guard
(unlike the guarded returns on lines 57-58), so the claim as stated fails. -/
theorem c2_ma_guard_cex :
    (get_stock_data none (Except.ok [(1 : ℚ), 2, 3, 4, 5, 6, 7, 8, 9, 10])).map
        Metrics.ma50 = some PyVal.nan ∧
    (get_stock_data none (Except.ok [(1 : ℚ), 2, 3, 4, 5, 6, 7, 8, 9, 10])).map
        Metrics.ma200 = some PyVal.nan ∧
    PyVal.nan ≠ PyVal.null := ⟨rfl, rfl, by decide⟩

/-- C2 (amended): `get_stock_data` computes its moving averages unguarded:
on a cache miss with a nonempty history of fewer than 50 (resp. 200) points
the 50-day (resp. 200-day) MA is `NaN`, not null; with at least 50
(resp. 200) points it is numeric; an empty history (or a raising fetch) is
swallowed by the `except` and yields the empty metrics dict; in no case does
`get_stock_data` raise to the caller (the embedding is a total function). -/
theorem c2_ma_unguarded_amended (xs : List ℚ) (h : xs ≠ []) :
    get_stock_data none (Except.ok xs) = some (metricsOf xs) ∧
    (xs.length < 50 → (metricsOf xs).ma50 = PyVal.nan) ∧
    (50 ≤ xs.length → ∃ q, (metricsOf xs).ma50 = PyVal.num q) ∧
    (xs.length < 200 → (metricsOf xs).ma200 = PyVal.nan) ∧
    (200 ≤ xs.length → ∃ q, (metricsOf xs).ma200 = PyVal.num q) ∧
    get_stock_data none (Except.ok ([] : List ℚ)) = none ∧
    get_stock_data none (Except.error ()) = none := by
  refine ⟨by simp [get_stock_data, h], fun hl => ?_, fun hl => ?_, fun hl => ?_,
    fun hl => ?_, rfl, rfl⟩ <;>
    simp [metricsOf, rollingMeanLast, hl, Nat.not_lt.mpr hl]

/-- C2 amended witness at a concrete 3-point history. -/
theorem c2_ma_unguarded_amended_witness :
    (metricsOf [(1 : ℚ), 2, 3]).ma50 = PyVal.nan ∧
    get_stock_data none (Except.ok [(1 : ℚ), 2, 3]) = some (metricsOf [(1 : ℚ), 2, 3]) :=
  ⟨(c2_ma_unguarded_amended [1, 2, 3] (by decide)).2.1 (by decide),
   (c2_ma_unguarded_amended [1, 2, 3] (by decide)).1⟩

/-- C3 evaluation of the code at the failing input: a task-1 query that hits
no lookup-table company and whose generation-based extraction fails leaves
both entity keys unassigned, no user-facing response is set, and the
`generate_report_node` executor then raises `KeyError` at
`if state["ticker"]:` (src/agent.py line 212) — it does not short-circuit
with a message, contradicting the claim (the code, not the claim, is at
fault: spec section 7(b) states the intended behaviour). -/
theorem c3_missing_entity_keyerror :
    (router_extract_single ExtractLLM.failed
        ⟨"report on an unknown firm".toList, ['1'], none, none, none⟩).ticker = none ∧
    (router_extract_single ExtractLLM.failed
        ⟨"report on an unknown firm".toList, ['1'], none, none, none⟩).response = none ∧
    generate_report_node (Except.ok ("ok".toList))
        (router_extract_single ExtractLLM.failed
          ⟨"report on an unknown firm".toList, ['1'], none, none, none⟩) =
      Except.error PyErr.keyError :=
  ⟨rfl, rfl, rfl⟩

/-- C5: cache round-trip. Writing a metrics, news or highlights entry and
reading it back strictly within its TTL (24h = 86400s for metrics and news,
5min = 300s for highlights) returns the identical payload; reading once the
TTL has elapsed returns a miss (`none`). -/
theorem c5_cache_roundtrip {α β γ : Type} (m : α) (nw : β) (hl : γ) (t0 now : ℚ) :
    (now - t0 < 86400 → get_cached_data now (set_cached_data t0 m) = some m) ∧
    (86400 ≤ now - t0 → get_cached_data now (set_cached_data t0 m) = none) ∧
    (now - t0 < 86400 → get_cached_news now (set_cached_news t0 nw) = some nw) ∧
    (86400 ≤ now - t0 → get_cached_news now (set_cached_news t0 nw) = none) ∧
    (now - t0 < 300 → get_cached_highlights now (set_cached_highlights t0 hl) = some hl) ∧
    (300 ≤ now - t0 → get_cached_highlights now (set_cached_highlights t0 hl) = none) := by
  refine ⟨fun h => ?_, fun h => ?_, fun h => ?_, fun h => ?_, fun h => ?_, fun h => ?_⟩ <;>
    simp only [get_cached_data, set_cached_data, get_cached_news, set_cached_news,
      get_cached_highlights, set_cached_highlights, CACHE_EXPIRATION_SECONDS,
      CACHE_HIGHLIGHTS_SECONDS] <;>
    first
      | exact if_pos h
      | exact if_neg (not_lt.mpr h)

/-- C5 witness: a fresh read at 100s returns the payload, a highlights read
at 400s (TTL 300s elapsed) misses. -/
theorem c5_cache_roundtrip_witness :
    get_cached_data (100 : ℚ) (set_cached_data 0 (7 : ℕ)) = some 7 ∧
    get_cached_highlights (400 : ℚ) (set_cached_highlights 0 (7 : ℕ)) = none :=
  ⟨(c5_cache_roundtrip 7 7 7 0 100).1 (by norm_num),
   (c5_cache_roundtrip 7 7 (7 : ℕ) 0 400).2.2.2.2.2 (by norm_num)⟩

theorem length_filterMap_toOption {α β : Type} (fetch : α → Except Unit β) (cs : List α) :
    (cs.filterMap fun c => (fetch c).toOption).length +
      cs.countP (fun c => (fetch c).toOption.isNone) = cs.length := by
  induction cs with
  | nil => rfl
  | cons c rest ih =>
    cases h : fetch c <;>
      simp only [List.filterMap_cons, List.countP_cons, h, Except.toOption] at ih ⊢ <;>
      simp <;> omega

/-- C7: highlights batch isolation. When exactly one company in the batch
has a raising per-company fetch, the collected result list of
`generate_highlights_node` (src/agent.py lines 356-363) holds exactly N-1
entries — the raising future is caught and excluded — and the collection is
a total function: no exception escapes to the caller. -/
theorem c7_highlights_batch_isolation {α β : Type} (companies : List α)
    (fetch : α → Except Unit β)
    (h : companies.countP (fun c => (fetch c).toOption.isNone) = 1) :
    (highlightsBatch companies fetch).length = companies.length - 1 := by
  have hlen := length_filterMap_toOption fetch companies
  unfold highlightsBatch
  omega

/-- C7 witness: three companies, the middle one raising, give two entries. -/
theorem c7_highlights_batch_isolation_witness :
    (highlightsBatch [0, 1, 2]
        (fun c => if c = 1 then Except.error () else Except.ok c)).length = 2 :=
  c7_highlights_batch_isolation _ _ (by decide)

/-- C9: whenever the previous close is 0 or missing, or the current price is
missing, the daily percent change derived by `get_stock_highlights`
(src/tools.py lines 116-118) is null, and — for any inputs at all — the
guarded expression never evaluates a division by zero (no
`ZeroDivisionError` is ever produced). -/
theorem c9_daily_change_guard (current prevClose : Option ℚ)
    (h : prevClose = none ∨ prevClose = some 0 ∨ current = none) :
    highlightsDailyChange current prevClose = Except.ok none ∧
    ∀ c p : Option ℚ, highlightsDailyChange c p ≠ Except.error () := by
  constructor
  · rcases h with rfl | rfl | rfl
    · cases current <;> rfl
    · cases current <;> simp [highlightsDailyChange]
    · cases prevClose <;> rfl
  · intro c p
    rcases p with _ | p <;> rcases c with _ | c <;>
      simp only [highlightsDailyChange] <;> try simp
    split
    · rename_i hpc
      simp [pyDiv, hpc.1, Except.map]
    · simp

/-- C9 witness: previous close 0 with a present current price yields null. -/
theorem c9_daily_change_guard_witness :
    highlightsDailyChange (some 5) (some 0) = Except.ok none :=
  (c9_daily_change_guard (some 5) (some 0) (Or.inr (Or.inl rfl))).1

/-- C4: the `get_recent_news` tiered fallback on a cache miss. The attempted
tiers form a prefix of [Alpha Vantage, yfinance, Brave] in that strict
order; the yfinance tier runs exactly when the Alpha Vantage tier raised or
returned an empty feed; the Brave web-search tier runs exactly when the two
previous tiers failed that way and a company name was supplied; any
nonempty result is written through to the news cache; and on total
exhaustion the function returns the empty list (it is total — never an
error). -/
theorem c4_news_tiered_fallback {α : Type} (av yfNews : Except Unit (List α))
    (company : Option (List Char)) (brave : List α) :
    ((get_recent_news none av yfNews company brave).attempts = [Tier.alphaVantage] ∨
     (get_recent_news none av yfNews company brave).attempts =
       [Tier.alphaVantage, Tier.yfinance] ∨
     (get_recent_news none av yfNews company brave).attempts =
       [Tier.alphaVantage, Tier.yfinance, Tier.brave]) ∧
    (Tier.yfinance ∈ (get_recent_news none av yfNews company brave).attempts ↔
      (av = Except.error () ∨ av = Except.ok [])) ∧
    (Tier.brave ∈ (get_recent_news none av yfNews company brave).attempts ↔
      ((av = Except.error () ∨ av = Except.ok []) ∧
       (yfNews = Except.error () ∨ yfNews = Except.ok []) ∧ company.isSome = true)) ∧
    ((get_recent_news none av yfNews company brave).result ≠ [] →
      (get_recent_news none av yfNews company brave).cacheWrite =
        some (get_recent_news none av yfNews company brave).result) ∧
    ((av = Except.error () ∨ av = Except.ok []) →
     (yfNews = Except.error () ∨ yfNews = Except.ok []) →
     (company = none ∨ brave = []) →
      (get_recent_news none av yfNews company brave).result = []) := by
  rcases av with _ | feed
  · rcases yfNews with _ | l
    · rcases company with _ | c
      · simp [get_recent_news, newsTier2, newsTier3]
      · simp [get_recent_news, newsTier2, newsTier3]
    · rcases company with _ | c
      · by_cases hl : l = [] <;>
          simp [get_recent_news, newsTier2, newsTier3, hl, List.isEmpty_iff]
      · by_cases hl : l = [] <;>
          simp [get_recent_news, newsTier2, newsTier3, hl, List.isEmpty_iff]
  · by_cases hf : feed = []
    · rcases yfNews with _ | l
      · rcases company with _ | c
        · simp [get_recent_news, newsTier2, newsTier3, hf, List.isEmpty_iff]
        · simp [get_recent_news, newsTier2, newsTier3, hf, List.isEmpty_iff]
      · rcases company with _ | c
        · by_cases hl : l = [] <;>
            simp [get_recent_news, newsTier2, newsTier3, hf, hl, List.isEmpty_iff]
        · by_cases hl : l = [] <;>
            simp [get_recent_news, newsTier2, newsTier3, hf, hl, List.isEmpty_iff]
    · simp [get_recent_news, newsTier2, newsTier3, hf, List.isEmpty_iff]

/-- C4 witness: Alpha Vantage raises, yfinance returns an empty list, a
company name is present — all three tiers run in order, the Brave result is
returned and written through to the cache. -/
theorem c4_news_tiered_fallback_witness :
    (get_recent_news none (Except.error ()) (Except.ok ([] : List ℕ))
        (some ("Apple".toList)) [5]).cacheWrite =
      some (get_recent_news none (Except.error ()) (Except.ok ([] : List ℕ))
        (some ("Apple".toList)) [5]).result ∧
    (get_recent_news none (Except.error ()) (Except.ok ([] : List ℕ))
        (some ("Apple".toList)) [5]).attempts =
      [Tier.alphaVantage, Tier.yfinance, Tier.brave] :=
  ⟨(c4_news_tiered_fallback (Except.error ()) (Except.ok ([] : List ℕ))
      (some ("Apple".toList)) [5]).2.2.2.1 (by decide), by decide⟩

theorem removeAllFuel_no_occurrence (needle : List Char) (fuel : ℕ) :
    ∀ s : List Char, ¬ needle <:+: s → removeAllFuel needle fuel s = s := by
  induction fuel with
  | zero => intro s _; cases s <;> rfl
  | succ fuel ih =>
    intro s h
    cases s with
    | nil => rfl
    | cons c rest =>
      have hcond : (!needle.isEmpty && needle.isPrefixOf (c :: rest)) = false := by
        by_contra hx
        rw [Bool.not_eq_false, Bool.and_eq_true] at hx
        have hpre : needle <+: c :: rest := by simpa using hx.2
        exact h hpre.isInfix
      have hrest : ¬ needle <:+: rest := by
        intro hinf
        obtain ⟨s₁, t₁, hh⟩ := hinf
        exact h ⟨c :: s₁, t₁, by simp [hh]⟩
      simp [removeAllFuel, hcond, ih rest hrest]

/-- C6 counterexample: with a failing classifier, the query
`"Tesla What is the latest news on"` routes to task 4, yet the topic the
code derives is `"Tesla"` — `str.replace` deletes the phrase occurrence in
the middle of the string — while the claim's leading-phrase stripping would
leave the full query (which has no leading phrase) as topic, so the claim as
stated fails. -/
theorem c6_topic_leading_cex :
    (routerClassify (fun _ => Except.error ())
        ("Tesla What is the latest news on".toList)).taskType = ['4'] ∧
    generalNewsTopic ("Tesla What is the latest news on".toList) = "Tesla".toList ∧
    claimTopic ("Tesla What is the latest news on".toList) =
      "Tesla What is the latest news on".toList ∧
    "Tesla".toList ≠ "Tesla What is the latest news on".toList := by decide

/-- C6 (amended): if the generation-based classification call fails, the
task type defaults to 4 (General News); the General-News topic is derived by
deleting every occurrence of the phrase "What is the latest news on" — not
only a leading one — and trimming surrounding whitespace; in particular a
query that does not contain the phrase at all, such as the full string
`"MSFT"`, is (after trimming) left whole as the topic. -/
theorem c6_default_and_topic_amended (classify : List Char → Except Unit (List Char))
    (q : List Char) (hfail : classify q = Except.error ()) :
    ((routerClassify classify q).classifierArg.isSome = true →
      (routerClassify classify q).taskType = ['4']) ∧
    (¬ newsPhrase <:+: q → generalNewsTopic q = pyStrip q) ∧
    generalNewsTopic ("MSFT".toList) = "MSFT".toList := by
  refine ⟨?_, fun hni => ?_, by decide⟩
  · unfold routerClassify
    cases hpm : prefixMatch q with
    | none => simp [classifyFallback, hfail]
    | some p =>
      obtain ⟨ds, g2⟩ := p
      by_cases hds : ds ∈ [['1'], ['2'], ['3'], ['4'], ['5']]
      · simp [hds]
      · simp [hds, classifyFallback, hfail]
  · unfold generalNewsTopic removeAll
    rw [removeAllFuel_no_occurrence _ _ _ hni]

/-- C6 amended witness at the query `"MSFT"` with a failing classifier. -/
theorem c6_default_and_topic_amended_witness :
    (routerClassify (fun _ => Except.error ()) ("MSFT".toList)).taskType = ['4'] ∧
    generalNewsTopic ("MSFT".toList) = "MSFT".toList := by
  have h := c6_default_and_topic_amended (fun _ => Except.error ()) ("MSFT".toList) rfl
  exact ⟨h.1 (by decide), h.2.2⟩

theorem extract_lookup_eq_dedupe (ql : List Char) :
    ∀ (table : List (List Char × List Char × List Char)) (seen : List (List Char)),
      (extract_lookup ql seen table).1 =
        spec_dedupe_by_ticker seen (table.filter fun e => hasWordMatch e.1 ql) := by
  intro table
  induction table with
  | nil => intro seen; rfl
  | cons e rest ih =>
    intro seen
    by_cases hm : hasWordMatch e.1 ql = true
    · by_cases hs : e.2.2 ∈ seen
      · simp [extract_lookup, spec_dedupe_by_ticker, List.filter_cons, hm, hs, ih]
      · simp [extract_lookup, spec_dedupe_by_ticker, List.filter_cons, hm, hs, ih]
    · simp only [Bool.not_eq_true] at hm
      simp [extract_lookup, List.filter_cons, hm, ih]

theorem dedupe_ticker_nodup :
    ∀ (table : List (List Char × List Char × List Char)) (seen : List (List Char)),
      ((spec_dedupe_by_ticker seen table).map CompanyRef.ticker).Nodup ∧
      ∀ t ∈ (spec_dedupe_by_ticker seen table).map CompanyRef.ticker, t ∉ seen := by
  intro table
  induction table with
  | nil => intro seen; exact ⟨List.nodup_nil, by simp [spec_dedupe_by_ticker]⟩
  | cons e rest ih =>
    intro seen
    by_cases hs : e.2.2 ∈ seen
    · simpa [spec_dedupe_by_ticker, hs] using ih seen
    · have ihx := ih (e.2.2 :: seen)
      have hmap : (spec_dedupe_by_ticker seen (e :: rest)).map CompanyRef.ticker =
          e.2.2 :: (spec_dedupe_by_ticker (e.2.2 :: seen) rest).map CompanyRef.ticker := by
        simp [spec_dedupe_by_ticker, hs]
      constructor
      · rw [hmap, List.nodup_cons]
        exact ⟨fun hmem => (ihx.2 _ hmem) (List.mem_cons_self _ _), ihx.1⟩
      · intro t hmem
        rw [hmap, List.mem_cons] at hmem
        rcases hmem with rfl | hmem
        · exact hs
        · exact fun hts => (ihx.2 t hmem) (List.mem_cons_of_mem _ hts)

/-- C8: multi-entity extraction over the lookup-table path. For the query
`"compare apple and nvidia"` the full `extract_many` returns exactly
Apple/AAPL then Nvidia/NVDA; and in general the lookup-table scan equals the
claim-side "matches in table order, deduplicated by ticker" function
(`spec_dedupe_by_ticker` over the table filtered by word-boundary match), so
its output lists at most one entry per ticker, in table order. -/
theorem c8_extract_many_lookup :
    extract_many ("compare apple and nvidia".toList) =
      [⟨"Apple".toList, "AAPL".toList⟩, ⟨"Nvidia".toList, "NVDA".toList⟩] ∧
    (∀ ql : List Char, (extract_lookup ql [] common_companies).1 =
      spec_dedupe_by_ticker [] (common_companies.filter fun e => hasWordMatch e.1 ql)) ∧
    (∀ ql : List Char,
      ((extract_lookup ql [] common_companies).1.map CompanyRef.ticker).Nodup) := by
  refine ⟨by decide, fun ql => extract_lookup_eq_dedupe ql common_companies [], fun ql => ?_⟩
  rw [extract_lookup_eq_dedupe ql common_companies []]
  exact (dedupe_ticker_nodup _ []).1

/-- C10 witness at the concrete query `"6: foo"`. -/
theorem c10_out_of_range_prefix_witness :
    routerClassify (fun _ => Except.ok ['4']) ("6".toList ++ ':' :: " foo".toList) =
      classifyFallback (fun _ => Except.ok ['4']) ("6".toList ++ ':' :: " foo".toList) ∧
    (classifyFallback (fun _ => Except.ok ['4'])
        ("6".toList ++ ':' :: " foo".toList)).classifierArg =
      some ("6".toList ++ ':' :: " foo".toList) ∧
    (classifyFallback (fun _ => Except.ok ['4'])
        ("6".toList ++ ':' :: " foo".toList)).query =
      "6".toList ++ ':' :: " foo".toList :=
  c10_out_of_range_prefix (fun _ => Except.ok ['4']) ("6".toList) (" foo".toList)
    (by decide) (by decide) (by decide)
